import Mathlib

/-!
Verification of the SECOP II relay server (`src/server.js`).

The development shallowly embeds the query-construction, date, validation,
response-cleanup and request-handler logic of the server.  Strings are Lean
`String`s, JavaScript arrays are Lean lists, the two outbound network calls
(the open-data fetch and the chat-completion call) are modelled by explicit
outcome values passed to the embedded functions, and JavaScript `Date`
arithmetic is modelled by the standard civil-calendar/epoch-day conversion
that underlies ECMAScript time values.
-/

namespace SECOP

/-! ## Base filters and field sets (`server.js` lines 14-57) -/

/-- Embedding of the module level constant `filtrosBase`. -/
def filtrosBase : List String :=
  ["adjudicado = \x27No\x27",
   "precio_base > 500000000",
   "modalidad_de_contratacion != \x27Contratación directa\x27",
   "codigo_principal_de_categoria LIKE \x27%811015%\x27"]

/-- Embedding of the reduced field set `camposReducidos`. -/
def camposReducidos : List String :=
  ["id_del_proceso", "entidad", "departamento_entidad",
   "descripci_n_del_procedimiento", "fecha_de_publicacion_del",
   "estado_del_procedimiento", "adjudicado", "fecha_adjudicacion",
   "precio_base", "urlproceso"]

/-- Embedding of the full field set `camposFiltrados`. -/
def camposFiltrados : List String :=
  ["id_del_proceso", "entidad", "departamento_entidad",
   "descripci_n_del_procedimiento", "estado_del_procedimiento",
   "adjudicado", "fecha_adjudicacion", "precio_base", "urlproceso",
   "unidad_de_duracion", "fase", "fecha_de_publicacion_del",
   "fecha_de_ultima_publicaci", "fecha_de_publicacion_fase",
   "fecha_de_publicacion_fase_1", "fecha_de_publicacion_fase_2",
   "fecha_de_publicacion_fase_3", "fecha_de_recepcion_de",
   "fecha_de_apertura_de_respuesta", "fecha_de_apertura_efectiva"]

/-! ## Civil-calendar model of the JavaScript `Date` runtime

`server.js` relies on the ECMAScript `Date` primitives `getDay`, `getDate`,
`setDate`, `getFullYear` and `getMonth`.  ECMAScript time values are days
since the epoch 1970-01-01; the conversions between day numbers and civil
dates below follow the standard civil-calendar algorithms (the same mapping
MakeDay/YearFromTime etc. compute). -/

/-- Day number (days since 1970-01-01) of the first day of month `m` (1-based)
in year `y`.  This is the ECMAScript `MakeDay (y, m, 1)` mapping. -/
def firstOfMonthDays (y m : Int) : Int :=
  let yAdj : Int := if m ≤ 2 then y - 1 else y
  let era : Int := yAdj.fdiv 400
  let yoe : Int := yAdj - era * 400
  let mp : Int := if m > 2 then m - 3 else m + 9
  let doy : Int := (153 * mp + 2).fdiv 5
  let doe : Int := yoe * 365 + yoe.fdiv 4 - yoe.fdiv 100 + doy
  era * 146097 + doe - 719468

/-- Day number (days since 1970-01-01) of the civil date `y-m-d` (`m` 1-based). -/
def daysFromCivil (y m d : Int) : Int :=
  firstOfMonthDays y m + (d - 1)

/-- Civil date `(year, month, day)` (month 1-based) of a day number. -/
def civilFromDays (z0 : Int) : Int × Int × Int :=
  let z := z0 + 719468
  let era := z.fdiv 146097
  let doe := z - era * 146097
  let yoe := (doe - doe.fdiv 1460 + doe.fdiv 36524 - doe.fdiv 146096).fdiv 365
  let y := yoe + era * 400
  let doy := doe - (365 * yoe + yoe.fdiv 4 - yoe.fdiv 100)
  let mp := (5 * doy + 2).fdiv 153
  let d := doy - (153 * mp + 2).fdiv 5 + 1
  let m := if mp < 10 then mp + 3 else mp - 9
  (if m ≤ 2 then y + 1 else y, m, d)

/-- A civil calendar date; the `new Date()` value available to the server,
restricted to its date components (month is 1-based here, the JavaScript
0-based `getMonth` and the `+ 1` in the formatting code cancel). -/
structure CivilDate where
  year : Int
  month : Int
  day : Int
deriving DecidableEq, Repr

/-- ECMAScript `Date.prototype.getDay`: `0` = Sunday, `1` = Monday, ...,
`6` = Saturday (1970-01-01 was a Thursday, weekday `4`). -/
def dayOfWeek (t : CivilDate) : Int :=
  (daysFromCivil t.year t.month t.day + 4).emod 7

/-- Model of `String(n).padStart(2, "0")`. -/
def pad2 (n : Int) : String :=
  let s := toString n
  if s.length < 2 then "0" ++ s else s

/-- The `yyyy-mm-dd` formatting of `server.js` lines 77-81. -/
def formatYmd (c : Int × Int × Int) : String :=
  toString c.1 ++ "-" ++ pad2 c.2.1 ++ "-" ++ pad2 c.2.2

/-- Embedding of `getPreviousBusinessDay` (`server.js` lines 66-82).
`setDate (today.getDate () - daysBack)` is ECMAScript
`MakeDay (year, month, getDate () - daysBack)`, i.e. the day number of the
first of the current month plus `(getDate () - daysBack) - 1`. -/
def getPreviousBusinessDay (today : CivilDate) : String :=
  let dow := dayOfWeek today
  let daysBack : Int := if dow = 1 then 3 else if dow = 0 then 2 else 1
  let prevDays := firstOfMonthDays today.year today.month + (today.day - daysBack - 1)
  formatYmd (civilFromDays prevDays)

/-- Calendar subtraction of `k` days, the notion the specification uses:
convert to a day number, subtract, convert back. -/
def subDays (t : CivilDate) (k : Int) : Int × Int × Int :=
  civilFromDays (daysFromCivil t.year t.month t.day - k)

/-! ## Date validation (`server.js` lines 89-95) -/

/-- Character level test of the regular expression
`^\d\x7b4\x7d-\d\x7b2\x7d-\d\x7b2\x7d$`. -/
def datePatternChars : List Char → Bool
  | [y1, y2, y3, y4, h1, m1, m2, h2, d1, d2] =>
    y1.isDigit && y2.isDigit && y3.isDigit && y4.isDigit && h1 == '-' &&
    m1.isDigit && m2.isDigit && h2 == '-' && d1.isDigit && d2.isDigit
  | _ => false

/-- The test of the regular expression `^\d\x7b4\x7d-\d\x7b2\x7d-\d\x7b2\x7d$`. -/
def matchesDatePattern (s : String) : Bool :=
  datePatternChars s.data

/-- Numeric value of a decimal digit character. -/
def digitVal (c : Char) : Int :=
  (c.toNat : Int) - 48

/-- The year/month/day fields read from a string already known to match the
date pattern. -/
def parseYmd (s : String) : Option (Int × Int × Int) :=
  match s.data with
  | [y1, y2, y3, y4, _, m1, m2, _, d1, d2] =>
    some (digitVal y1 * 1000 + digitVal y2 * 100 + digitVal y3 * 10 + digitVal y4,
          digitVal m1 * 10 + digitVal m2,
          digitVal d1 * 10 + digitVal d2)
  | _ => none

/-- Gregorian leap-year rule. -/
def isLeapYear (y : Int) : Bool :=
  (y.emod 4 == 0 && y.emod 100 != 0) || y.emod 400 == 0

/-- Number of days in month `m` of year `y`. -/
def daysInMonth (y m : Int) : Int :=
  if m = 2 then (if isLeapYear y then 29 else 28)
  else if m = 4 ∨ m = 6 ∨ m = 9 ∨ m = 11 then 30 else 31

/-- Model of the runtime date parser: for a ten character digit string,
`new Date (s)` yields a valid time value (so `isNaN (date)` is false)
exactly when the month and day denote a real calendar date. -/
def isRealCalendarDate (s : String) : Bool :=
  match parseYmd s with
  | some (y, m, d) => 1 ≤ m && m ≤ 12 && 1 ≤ d && d ≤ daysInMonth y m
  | none => false

/-- Embedding of `isValidDateFormat` (`server.js` lines 89-95): the regular
expression test followed by the `new Date` / `isNaN` check. -/
def isValidDateFormat (s : String) : Bool :=
  matchesDatePattern s && isRealCalendarDate s

/-! ## Query construction (`server.js` lines 103-119) -/

/-- The per-request date clause pushed in `getSECOPData` line 110, with the
formatted date of line 106 interpolated. -/
def dateClause (targetDate : String) : String :=
  "fecha_de_publicacion_del >= \x27" ++ (targetDate ++ "T00:00:00.000") ++ "\x27"

/-- The five query parameters sent to the open-data API. -/
structure QueryParams where
  whereParam : String
  selectParam : String
  orderParam : String
  limitParam : Nat
  offsetParam : Nat
deriving DecidableEq, Repr

/-- The parameter object of `server.js` lines 108-119, built from an explicit
base filter list: the base filters are copied (`[...filtrosBase]`), the date
clause is pushed onto the copy, and the parameters are assembled. -/
def buildParamsFrom (base : List String) (campos : List String) (targetDate : String) :
    QueryParams :=
  let filtros := base ++ [dateClause targetDate]
  { whereParam := String.intercalate " AND " filtros
    selectParam := if campos.length > 0 then String.intercalate "," campos else "*"
    orderParam := "precio_base DESC"
    limitParam := 1000
    offsetParam := 0 }

/-- The parameters built by `getSECOPData` for a resolved date. -/
def buildParams (campos : List String) (targetDate : String) : QueryParams :=
  buildParamsFrom filtrosBase campos targetDate

/-- JavaScript truthiness of the optional `fecha` request parameter
(`undefined` and the empty string are falsy). -/
def fechaTruthy : Option String → Bool
  | none => false
  | some s => s != ""

/-- The date fallback `fecha || getPreviousBusinessDay ()` used both in
`getSECOPData` (line 105) and in the handlers. -/
def resolveDate (fecha : Option String) (today : CivilDate) : String :=
  match fecha with
  | some f => if f = "" then getPreviousBusinessDay today else f
  | none => getPreviousBusinessDay today

/-- Embedding of `getSECOPData` (`server.js` lines 103-128).  The outbound
`axios.get` is modelled by an explicit outcome: `Except.ok` is a 2xx reply
carrying records, `Except.error` is a transport error or a non-2xx reply.
The function returns the parameters it sent together with the record list
the caller sees; on failure the catch block yields the empty list. -/
def getSECOPData {α : Type} (campos : List String) (fecha : Option String)
    (today : CivilDate) (outcome : Except String (List α)) :
    QueryParams × List α :=
  let targetDate := resolveDate fecha today
  let params := buildParams campos targetDate
  (params,
   match outcome with
   | Except.ok rs => rs
   | Except.error _ => [])

/-! ## JSON values and `JSON.parse` (used by `analyseDataWithAI`) -/

/-- JSON values.  Numbers are kept as their lexemes, which is enough to state
every property of interest and keeps the grammar faithful. -/
inductive Json where
  | null
  | bool (b : Bool)
  | num (lexeme : String)
  | str (s : String)
  | arr (elems : List Json)
  | obj (members : List (String × Json))
deriving Repr

/-- JSON insignificant whitespace. -/
def skipWs : List Char → List Char
  | c :: cs => if c == ' ' || c == '\t' || c == '\n' || c == '\r' then skipWs cs else c :: cs
  | [] => []

/-- Value of a hexadecimal digit. -/
def hexVal (c : Char) : Option Nat :=
  if '0' ≤ c && c ≤ '9' then some (c.toNat - 48)
  else if 'a' ≤ c && c ≤ 'f' then some (c.toNat - 87)
  else if 'A' ≤ c && c ≤ 'F' then some (c.toNat - 55)
  else none

/-- Decimal digit test for the JSON number grammar. -/
def isJsonDigit (c : Char) : Bool :=
  '0' ≤ c && c ≤ '9'

/-- Body of a JSON string after the opening quote, with the escape sequences
of the JSON grammar; returns the decoded string and the rest of the input. -/
def parseStringBody : List Char → List Char → Option (String × List Char)
  | '\"' :: rest, acc => some (String.mk acc.reverse, rest)
  | '\\' :: '\"' :: r, acc => parseStringBody r ('\"' :: acc)
  | '\\' :: '\\' :: r, acc => parseStringBody r ('\\' :: acc)
  | '\\' :: '/' :: r, acc => parseStringBody r ('/' :: acc)
  | '\\' :: 'b' :: r, acc => parseStringBody r ('\x08' :: acc)
  | '\\' :: 'f' :: r, acc => parseStringBody r ('\x0c' :: acc)
  | '\\' :: 'n' :: r, acc => parseStringBody r ('\n' :: acc)
  | '\\' :: 'r' :: r, acc => parseStringBody r ('\r' :: acc)
  | '\\' :: 't' :: r, acc => parseStringBody r ('\t' :: acc)
  | '\\' :: 'u' :: h1 :: h2 :: h3 :: h4 :: r, acc =>
    (match hexVal h1, hexVal h2, hexVal h3, hexVal h4 with
     | some a, some b, some c, some d =>
       parseStringBody r (Char.ofNat (((a * 16 + b) * 16 + c) * 16 + d) :: acc)
     | _, _, _, _ => none)
  | '\\' :: _, _ => none
  | c :: rest, acc => if c.toNat < 32 then none else parseStringBody rest (c :: acc)
  | [], _ => none

/-- Longest prefix of decimal digits, and the rest. -/
def takeDigits : List Char → List Char × List Char
  | c :: cs =>
    if isJsonDigit c then
      let p := takeDigits cs
      (c :: p.1, p.2)
    else ([], c :: cs)
  | [] => ([], [])

/-- The integer part of a JSON number after an optional sign:
`0` or a nonzero digit followed by digits. -/
def parseIntPart : List Char → Option (List Char × List Char)
  | '0' :: rest => some (['0'], rest)
  | c :: rest =>
    if isJsonDigit c then
      let p := takeDigits rest
      some (c :: p.1, p.2)
    else none
  | [] => none

/-- The optional fraction part of a JSON number. -/
def parseFracPart : List Char → Option (List Char × List Char)
  | '.' :: c :: rest =>
    if isJsonDigit c then
      let p := takeDigits rest
      some ('.' :: c :: p.1, p.2)
    else none
  | cs => some ([], cs)

/-- The optional exponent part of a JSON number. -/
def parseExpPart : List Char → Option (List Char × List Char)
  | e :: rest =>
    if e == 'e' || e == 'E' then
      match rest with
      | s :: r2 =>
        if s == '+' || s == '-' then
          match r2 with
          | c :: r3 =>
            if isJsonDigit c then
              let p := takeDigits r3
              some (e :: s :: c :: p.1, p.2)
            else none
          | [] => none
        else if isJsonDigit s then
          let p := takeDigits r2
          some (e :: s :: p.1, p.2)
        else none
      | [] => none
    else some ([], e :: rest)
  | [] => some ([], [])

/-- A JSON number (with optional leading minus), returned as its lexeme. -/
def parseNumber (cs : List Char) : Option (Json × List Char) :=
  match cs with
  | '-' :: cs1 => do
    let (ip, r1) ← parseIntPart cs1
    let (fp, r2) ← parseFracPart r1
    let (ep, r3) ← parseExpPart r2
    some (Json.num (String.mk ('-' :: (ip ++ fp ++ ep))), r3)
  | _ => do
    let (ip, r1) ← parseIntPart cs
    let (fp, r2) ← parseFracPart r1
    let (ep, r3) ← parseExpPart r2
    some (Json.num (String.mk (ip ++ fp ++ ep)), r3)

mutual

/-- A JSON value (fuel-indexed recursive descent). -/
def parseValue : Nat → List Char → Option (Json × List Char)
  | 0, _ => none
  | Nat.succ fuel, cs =>
    match skipWs cs with
    | 'n' :: 'u' :: 'l' :: 'l' :: rest => some (Json.null, rest)
    | 't' :: 'r' :: 'u' :: 'e' :: rest => some (Json.bool true, rest)
    | 'f' :: 'a' :: 'l' :: 's' :: 'e' :: rest => some (Json.bool false, rest)
    | '\"' :: rest =>
      (match parseStringBody rest [] with
       | some (s, r) => some (Json.str s, r)
       | none => none)
    | '[' :: rest =>
      (match skipWs rest with
       | ']' :: r => some (Json.arr [], r)
       | cs2 =>
         match parseElems fuel cs2 with
         | some (es, r) => some (Json.arr es, r)
         | none => none)
    | '\x7b' :: rest =>
      (match skipWs rest with
       | '\x7d' :: r => some (Json.obj [], r)
       | cs2 =>
         match parseMembers fuel cs2 with
         | some (ms, r) => some (Json.obj ms, r)
         | none => none)
    | cs1 => parseNumber cs1

/-- Comma separated JSON array elements up to the closing bracket. -/
def parseElems : Nat → List Char → Option (List Json × List Char)
  | 0, _ => none
  | Nat.succ fuel, cs =>
    match parseValue fuel cs with
    | some (j, r) =>
      (match skipWs r with
       | ',' :: r2 =>
         (match parseElems fuel r2 with
          | some (es, r3) => some (j :: es, r3)
          | none => none)
       | ']' :: r2 => some ([j], r2)
       | _ => none)
    | none => none

/-- Comma separated JSON object members up to the closing brace. -/
def parseMembers : Nat → List Char → Option (List (String × Json) × List Char)
  | 0, _ => none
  | Nat.succ fuel, cs =>
    match skipWs cs with
    | '\"' :: rest =>
      (match parseStringBody rest [] with
       | some (k, r) =>
         (match skipWs r with
          | ':' :: r2 =>
            (match parseValue fuel r2 with
             | some (v, r3) =>
               (match skipWs r3 with
                | ',' :: r4 =>
                  (match parseMembers fuel r4 with
                   | some (ms, r5) => some ((k, v) :: ms, r5)
                   | none => none)
                | '\x7d' :: r4 => some ([(k, v)], r4)
                | _ => none)
             | none => none)
          | _ => none)
       | none => none)
    | _ => none

end

/-- Model of `JSON.parse`: a single JSON value surrounded by optional
whitespace, with the whole input consumed; `none` is a parse exception. -/
def parseJson (s : String) : Option Json :=
  match parseValue (2 * s.data.length + 4) s.data with
  | some (j, rest) =>
    (match skipWs rest with
     | [] => some j
     | _ => none)
  | none => none

/-! ## Model reply cleanup and analysis (`server.js` lines 135-196) -/

/-- First replacement of line 179 (`replace (/\x60\x60\x60json\n?/, "")`):
remove the first occurrence, anywhere in the string, of three backticks
followed by `json`, together with one immediately following newline if
present. -/
def removeFirstFence : List Char → List Char
  | '\x60' :: '\x60' :: '\x60' :: 'j' :: 's' :: 'o' :: 'n' :: rest =>
    (match rest with
     | '\n' :: r => r
     | _ => rest)
  | c :: cs => c :: removeFirstFence cs
  | [] => []

/-- Helper for the second replacement: three backticks at the head of the
reversed string are dropped. -/
def stripRevTicks : List Char → List Char
  | '\x60' :: '\x60' :: '\x60' :: rest => rest
  | l => l

/-- Second replacement of line 179 (`replace (/\x60\x60\x60$/, "")`): one
trailing triple backtick is removed if the string ends with it. -/
def stripTrailingTicks (l : List Char) : List Char :=
  (stripRevTicks l.reverse).reverse

/-- ECMAScript whitespace test used by `String.prototype.trim`. -/
def isJsWhitespace (c : Char) : Bool :=
  c == ' ' || c == '\t' || c == '\n' || c == '\r' || c == '\x0b' || c == '\x0c' ||
  c.toNat == 0xa0 || c.toNat == 0xfeff || c.toNat == 0x2028 || c.toNat == 0x2029

/-- Drop leading whitespace characters. -/
def dropLeadingWs : List Char → List Char
  | c :: cs => if isJsWhitespace c then dropLeadingWs cs else c :: cs
  | [] => []

/-- Model of `String.prototype.trim` on character lists. -/
def jsTrimChars (l : List Char) : List Char :=
  ((dropLeadingWs (dropLeadingWs l).reverse)).reverse

/-- Model of `String.prototype.trim`. -/
def jsTrim (s : String) : String :=
  String.mk (jsTrimChars s.data)

/-- The cleanup of `server.js` line 179:
`content.replace (/\x60\x60\x60json\n?/, "").replace (/\x60\x60\x60$/, "").trim ()`. -/
def cleanFence (content : String) : String :=
  String.mk (jsTrimChars (stripTrailingTicks (removeFirstFence content.data)))

/-- Outcome of the single `axios.post` to the chat-completion API:
either a transport/authentication failure (the catch block), or a 2xx reply
whose `choices?.[0]?.message?.content` field is the given optional string. -/
inductive ChatOutcome where
  | transportError (msg : String)
  | response (content : Option String)

/-- The marker returned by the catch block (line 194). -/
def commErrorMarker : Json :=
  Json.obj [("error", Json.str "Error communicating with ChatGPT")]

/-- The marker returned when no content is present (line 175). -/
def noContentMarker : Json :=
  Json.obj [("error", Json.str "No valid response received from ChatGPT")]

/-- The marker returned when the cleaned reply is not valid JSON
(lines 186-189); it carries the raw cleaned text. -/
def invalidJsonMarker (raw : String) : Json :=
  Json.obj [("error", Json.str "ChatGPT response doesn\x27t contain valid JSON"),
            ("raw", Json.str raw)]

/-- The no-match sentence the system prompt (lines 154-156) instructs the
model to produce when no process is relevant. -/
def noMatchSentence : String :=
  "Today I haven\x27t found any processes that might interest you in SECOP"

/-- Embedding of `analyseDataWithAI` (`server.js` lines 135-196).  The
serialized record list `data` is sent in the request payload; the reply is
modelled by `outcome`.  A JavaScript falsy `content` (absent or the empty
string) yields the no-content marker; otherwise the reply is cleaned and
parsed, and a parse failure yields the invalid-JSON marker carrying the
cleaned text. -/
def analyseDataWithAI {α : Type} (data : List α) (outcome : ChatOutcome) : Json :=
  match outcome with
  | ChatOutcome.transportError _ => commErrorMarker
  | ChatOutcome.response content =>
    match content with
    | none => noContentMarker
    | some c =>
      if c = "" then noContentMarker
      else
        let cleanResponse := cleanFence c
        match parseJson cleanResponse with
        | some j => j
        | none => invalidJsonMarker cleanResponse

/-! ## Request handlers (`server.js` lines 297-377) -/

/-- The outbound calls a handler performs, in order. -/
inductive Effect where
  | fetchCall
  | analyzeCall
deriving DecidableEq, Repr

/-- Response of the `/raw` and `/filtered` endpoints: either the success
envelope or the 400 rejection of an invalid date parameter. -/
inductive RawResponse (α : Type) where
  | success (dateUsed : String) (totalRecords : Nat) (data : List α)
  | invalidDate
deriving DecidableEq, Repr

/-- HTTP status of a `/raw` / `/filtered` response. -/
def RawResponse.status {α : Type} : RawResponse α → Nat
  | RawResponse.success _ _ _ => 200
  | RawResponse.invalidDate => 400

/-- Response of the `/analyzed` endpoint. -/
inductive AnalyzedResponse where
  | success (dateUsed : String) (totalRecordsAnalyzed : Nat) (aiAnalysis : Json)
  | invalidDate

/-- HTTP status of an `/analyzed` response. -/
def AnalyzedResponse.status : AnalyzedResponse → Nat
  | AnalyzedResponse.success _ _ _ => 200
  | AnalyzedResponse.invalidDate => 400

/-- The body of the 400 rejection shared by all three handlers. -/
def invalidDateMessage : String :=
  "Invalid date format. Use YYYY-MM-DD"

/-- Embedding of the `/raw` handler (`server.js` lines 297-319): a truthy and
invalid `fecha` is rejected with 400 before any outbound call; otherwise the
data is fetched with the empty field list and the envelope is returned. -/
def rawHandler {α : Type} (fecha : Option String) (today : CivilDate)
    (outcome : Except String (List α)) : RawResponse α × List Effect :=
  if fechaTruthy fecha && !isValidDateFormat (fecha.getD "") then
    (RawResponse.invalidDate, [])
  else
    let datos := (getSECOPData [] fecha today outcome).2
    (RawResponse.success (resolveDate fecha today) datos.length datos,
     [Effect.fetchCall])

/-- Embedding of the `/filtered` handler (`server.js` lines 325-347). -/
def filteredHandler {α : Type} (fecha : Option String) (today : CivilDate)
    (outcome : Except String (List α)) : RawResponse α × List Effect :=
  if fechaTruthy fecha && !isValidDateFormat (fecha.getD "") then
    (RawResponse.invalidDate, [])
  else
    let datos := (getSECOPData camposFiltrados fecha today outcome).2
    (RawResponse.success (resolveDate fecha today) datos.length datos,
     [Effect.fetchCall])

/-- Embedding of the `/analyzed` handler (`server.js` lines 353-377): fetch
with the reduced field list, pass the fetched records to the analyzer, and
return the analysis envelope. -/
def analyzedHandler {α : Type} (fecha : Option String) (today : CivilDate)
    (outcome : Except String (List α)) (chat : ChatOutcome) :
    AnalyzedResponse × List Effect :=
  if fechaTruthy fecha && !isValidDateFormat (fecha.getD "") then
    (AnalyzedResponse.invalidDate, [])
  else
    let datos := (getSECOPData camposReducidos fecha today outcome).2
    let evaluacion := analyseDataWithAI datos chat
    (AnalyzedResponse.success (resolveDate fecha today) datos.length evaluacion,
     [Effect.fetchCall, Effect.analyzeCall])

/-! ## Sequences of queries against the shared module constants (claim C10) -/

/-- The three module level list constants of `server.js` as mutable state a
request could in principle act on: the base filter list and the two field
lists. -/
structure ModuleState where
  filtros : List String
  reducidos : List String
  filtrados : List String
deriving DecidableEq, Repr

/-- Which field list a call site of `getSECOPData` passes: `/raw` the empty
list, `/analyzed` the reduced list, `/filtered` the full filtered list. -/
inductive FieldChoice where
  | rawFields
  | reducedFields
  | filteredFields
deriving DecidableEq, Repr

/-- The field list a call site reads from the module state. -/
def fieldsOf (st : ModuleState) : FieldChoice → List String
  | FieldChoice.rawFields => []
  | FieldChoice.reducedFields => st.reducidos
  | FieldChoice.filteredFields => st.filtrados

/-- One call of `getSECOPData` viewed as acting on the module state: the
filter list is copied (`[...filtrosBase]`) and the date clause is pushed
onto the copy, and the chosen field list is only read (`campos.join`), so
the call returns the unchanged module state together with the parameters it
built. -/
def processQuery (st : ModuleState) (choice : FieldChoice) (targetDate : String) :
    ModuleState × QueryParams :=
  (st, buildParamsFrom st.filtros (fieldsOf st choice) targetDate)

/-- A sequence of queries threaded through the module state. -/
def runQueries (st : ModuleState) (qs : List (FieldChoice × String)) :
    ModuleState × List QueryParams :=
  match qs with
  | [] => (st, [])
  | q :: rest =>
    let step := processQuery st q.1 q.2
    let next := runQueries step.1 rest
    (next.1, step.2 :: next.2)

/-! ## Theorems -/

/-- Joining the four base clauses plus one further clause equals joining the
base clauses and appending the separator and the extra clause. -/
theorem intercalate_base_append (x : String) :
    String.intercalate " AND " (filtrosBase ++ [x]) =
      String.intercalate " AND " filtrosBase ++ " AND " ++ x := rfl

/-- The pushed date clause spelled out with the date interpolated. -/
theorem dateClause_eq (d : String) :
    dateClause d = "fecha_de_publicacion_del >= \x27" ++ d ++ "T00:00:00.000\x27" := by
  apply String.ext
  simp only [dateClause, String.data_append, List.append_assoc]
  rfl

/-- C1: for every field list and every resolved date, the built query has a
filter equal to the four fixed base clauses joined with \" AND \" plus the
date clause with literal time `T00:00:00.000`, a select equal to the comma
joined field list (or `*` when the list is empty), order `precio_base DESC`,
limit 1000, and offset 0. -/
theorem query_params_spec (campos : List String) (d : String) :
    (buildParams campos d).whereParam =
      String.intercalate " AND " filtrosBase ++ " AND " ++
        ("fecha_de_publicacion_del >= \x27" ++ d ++ "T00:00:00.000\x27") ∧
    (buildParams campos d).selectParam =
      (if campos = [] then "*" else String.intercalate "," campos) ∧
    (buildParams campos d).orderParam = "precio_base DESC" ∧
    (buildParams campos d).limitParam = 1000 ∧
    (buildParams campos d).offsetParam = 0 := by
  refine ⟨?_, ?_, rfl, rfl, rfl⟩
  · rw [show (buildParams campos d).whereParam
        = String.intercalate " AND " (filtrosBase ++ [dateClause d]) from rfl,
      intercalate_base_append, dateClause_eq]
  · cases campos <;> simp [buildParams, buildParamsFrom]

/-- C2: for every current date, `getPreviousBusinessDay` returns the current
date minus 3 days when it is a Monday (weekday 1), minus 2 days when it is a
Sunday (weekday 0), and minus 1 day otherwise — where minus-k-days is
calendar subtraction on day numbers — formatted `yyyy-mm-dd` with zero
padded month and day; concrete instances cover all three branches, a month
boundary and the zero padding. -/
theorem previous_business_day_spec :
    (∀ t : CivilDate,
      getPreviousBusinessDay t =
        formatYmd (subDays t
          (if dayOfWeek t = 1 then 3 else if dayOfWeek t = 0 then 2 else 1))) ∧
    dayOfWeek ⟨2025, 4, 21⟩ = 1 ∧
    getPreviousBusinessDay ⟨2025, 4, 21⟩ = "2025-04-18" ∧
    dayOfWeek ⟨2025, 4, 27⟩ = 0 ∧
    getPreviousBusinessDay ⟨2025, 4, 27⟩ = "2025-04-25" ∧
    getPreviousBusinessDay ⟨2025, 4, 23⟩ = "2025-04-22" ∧
    getPreviousBusinessDay ⟨2025, 3, 2⟩ = "2025-02-28" := by
  refine ⟨?_, by decide, by decide, by decide, by decide, by decide, by decide⟩
  intro t
  simp only [getPreviousBusinessDay, subDays, daysFromCivil]
  congr 2
  generalize (if dayOfWeek t = 1 then (3 : Int) else if dayOfWeek t = 0 then 2 else 1) = k
  generalize firstOfMonthDays t.year t.month = f
  ring

/-- The state threading of a query sequence: every step leaves the module
state unchanged and builds its parameters from it. -/
theorem runQueries_eq (qs : List (FieldChoice × String)) (st : ModuleState) :
    runQueries st qs =
      (st, qs.map (fun q => buildParamsFrom st.filtros (fieldsOf st q.1) q.2)) := by
  induction qs with
  | nil => rfl
  | cons q rest ih => simp [runQueries, processQuery, ih]

/-- C10: after any sequence of queries the module level base filter list
still holds exactly its original four clauses and both field lists are
unchanged; every query built its parameters from the original constants,
and every built filter expression consists of exactly those four clauses
plus exactly one date clause. -/
theorem module_constants_immutable (qs : List (FieldChoice × String)) :
    (runQueries ⟨filtrosBase, camposReducidos, camposFiltrados⟩ qs).1 =
      ⟨filtrosBase, camposReducidos, camposFiltrados⟩ ∧
    (runQueries ⟨filtrosBase, camposReducidos, camposFiltrados⟩ qs).1.filtros =
      filtrosBase ∧
    (runQueries ⟨filtrosBase, camposReducidos, camposFiltrados⟩ qs).1.reducidos =
      camposReducidos ∧
    (runQueries ⟨filtrosBase, camposReducidos, camposFiltrados⟩ qs).1.filtrados =
      camposFiltrados ∧
    filtrosBase.length = 4 ∧
    (runQueries ⟨filtrosBase, camposReducidos, camposFiltrados⟩ qs).2 =
      qs.map (fun q => buildParamsFrom filtrosBase
        (fieldsOf ⟨filtrosBase, camposReducidos, camposFiltrados⟩ q.1) q.2) ∧
    (runQueries ⟨filtrosBase, camposReducidos, camposFiltrados⟩ qs).2.map
        QueryParams.whereParam =
      qs.map (fun q => String.intercalate " AND " (filtrosBase ++ [dateClause q.2])) := by
  refine ⟨by rw [runQueries_eq], by rw [runQueries_eq], by rw [runQueries_eq],
    by rw [runQueries_eq], rfl, by rw [runQueries_eq], ?_⟩
  rw [runQueries_eq]
  simp [List.map_map, Function.comp, buildParamsFrom]

/-- The strict 4-2-2 digit pattern of the specification, stated as a
structural property of the string. -/
def SpecDatePattern (s : String) : Prop :=
  ∃ y1 y2 y3 y4 m1 m2 d1 d2 : Char,
    s.data = [y1, y2, y3, y4, '-', m1, m2, '-', d1, d2] ∧
    y1.isDigit = true ∧ y2.isDigit = true ∧ y3.isDigit = true ∧ y4.isDigit = true ∧
    m1.isDigit = true ∧ m2.isDigit = true ∧ d1.isDigit = true ∧ d2.isDigit = true

/-- The regular expression test succeeds exactly on character lists of the
4-2-2 digit shape. -/
theorem datePatternChars_iff (l : List Char) :
    datePatternChars l = true ↔
      (∃ y1 y2 y3 y4 m1 m2 d1 d2 : Char,
        l = [y1, y2, y3, y4, '-', m1, m2, '-', d1, d2] ∧
        y1.isDigit = true ∧ y2.isDigit = true ∧ y3.isDigit = true ∧ y4.isDigit = true ∧
        m1.isDigit = true ∧ m2.isDigit = true ∧ d1.isDigit = true ∧ d2.isDigit = true) := by
  match l with
  | [] => simp [datePatternChars]
  | [c1] => simp [datePatternChars]
  | [c1, c2] => simp [datePatternChars]
  | [c1, c2, c3] => simp [datePatternChars]
  | [c1, c2, c3, c4] => simp [datePatternChars]
  | [c1, c2, c3, c4, c5] => simp [datePatternChars]
  | [c1, c2, c3, c4, c5, c6] => simp [datePatternChars]
  | [c1, c2, c3, c4, c5, c6, c7] => simp [datePatternChars]
  | [c1, c2, c3, c4, c5, c6, c7, c8] => simp [datePatternChars]
  | [c1, c2, c3, c4, c5, c6, c7, c8, c9] => simp [datePatternChars]
  | c1 :: c2 :: c3 :: c4 :: c5 :: c6 :: c7 :: c8 :: c9 :: c10 :: c11 :: rest =>
    simp [datePatternChars]
  | [c1, c2, c3, c4, c5, c6, c7, c8, c9, c10] =>
    constructor
    · intro h
      have h9 : (c1.isDigit && c2.isDigit && c3.isDigit && c4.isDigit && (c5 == '-') &&
          c6.isDigit && c7.isDigit && (c8 == '-') && c9.isDigit && c10.isDigit) = true := h
      obtain ⟨h8, hd2⟩ := Bool.and_eq_true_iff.mp h9
      obtain ⟨h7, hd1⟩ := Bool.and_eq_true_iff.mp h8
      obtain ⟨h6, hh2b⟩ := Bool.and_eq_true_iff.mp h7
      obtain ⟨h5, hm2⟩ := Bool.and_eq_true_iff.mp h6
      obtain ⟨h4, hm1⟩ := Bool.and_eq_true_iff.mp h5
      obtain ⟨h3, hh1b⟩ := Bool.and_eq_true_iff.mp h4
      obtain ⟨h2, hy4⟩ := Bool.and_eq_true_iff.mp h3
      obtain ⟨h1, hy3⟩ := Bool.and_eq_true_iff.mp h2
      obtain ⟨hy1, hy2⟩ := Bool.and_eq_true_iff.mp h1
      have hh1 : c5 = '-' := beq_iff_eq.mp hh1b
      have hh2 : c8 = '-' := beq_iff_eq.mp hh2b
      subst hh1
      subst hh2
      exact ⟨c1, c2, c3, c4, c6, c7, c9, c10, rfl,
        hy1, hy2, hy3, hy4, hm1, hm2, hd1, hd2⟩
    · rintro ⟨y1, y2, y3, y4, m1, m2, d1, d2, heq, hy1, hy2, hy3, hy4, hm1, hm2, hd1, hd2⟩
      simp only [List.cons.injEq, and_true] at heq
      obtain ⟨e1, e2, e3, e4, e5, e6, e7, e8, e9, e10⟩ := heq
      subst e1; subst e2; subst e3; subst e4; subst e5
      subst e6; subst e7; subst e8; subst e9; subst e10
      simp [datePatternChars, hy1, hy2, hy3, hy4, hm1, hm2, hd1, hd2]

/-- C6: `isValidDateFormat` accepts a string exactly when it matches the
strict 4-2-2 digit pattern and denotes a real calendar date; the three
reference inputs behave as stated. -/
theorem isValidDateFormat_spec :
    (∀ s : String, isValidDateFormat s = true ↔
      (SpecDatePattern s ∧ isRealCalendarDate s = true)) ∧
    isValidDateFormat "2025-04-18" = true ∧
    isValidDateFormat "2025-13-01" = false ∧
    isValidDateFormat "25-04-18" = false := by
  refine ⟨fun s => ?_, by decide, by decide, by decide⟩
  rw [isValidDateFormat, Bool.and_eq_true]
  constructor
  · rintro ⟨h1, h2⟩
    exact ⟨(datePatternChars_iff s.data).mp h1, h2⟩
  · rintro ⟨h1, h2⟩
    exact ⟨(datePatternChars_iff s.data).mpr h1, h2⟩

/-- C3: when the outbound fetch fails, `getSECOPData` returns the empty list
for every field list, and the `/raw` handler still responds 200 with zero
total records and empty data (provided the date parameter did not already
fail validation, in which case no fetch happens at all). -/
theorem fetch_failure_returns_empty_and_200 (α : Type) (e : String)
    (fecha : Option String) (today : CivilDate)
    (h : ∀ s, fecha = some s → s = "" ∨ isValidDateFormat s = true) :
    (∀ campos, (getSECOPData campos fecha today
        (Except.error e : Except String (List α))).2 = []) ∧
    rawHandler fecha today (Except.error e : Except String (List α)) =
      (RawResponse.success (resolveDate fecha today) 0 [], [Effect.fetchCall]) ∧
    (rawHandler fecha today (Except.error e : Except String (List α))).1.status = 200 := by
  have hcond : (fechaTruthy fecha && !isValidDateFormat (fecha.getD "")) = false := by
    match fecha with
    | none => rfl
    | some s =>
      rcases h s rfl with h1 | h1
      · subst h1; rfl
      · simp [fechaTruthy, h1]
  have h2 : rawHandler fecha today (Except.error e : Except String (List α)) =
      (RawResponse.success (resolveDate fecha today) 0 [], [Effect.fetchCall]) := by
    unfold rawHandler
    rw [hcond]
    rfl
  exact ⟨fun campos => rfl, h2, by rw [h2]; rfl⟩

/-- C3 witness at a concrete failing fetch with no date parameter. -/
theorem fetch_failure_witness :
    rawHandler (none : Option String) ⟨2025, 4, 23⟩
        (Except.error "boom" : Except String (List Nat)) =
      (RawResponse.success "2025-04-22" 0 [], [Effect.fetchCall]) :=
  (fetch_failure_returns_empty_and_200 Nat "boom" none ⟨2025, 4, 23⟩
    (fun s hs => by cases hs)).2.1

/-- C7 counterexample: the `fecha` parameter value `""` is present and fails
`isValidDateFormat`, yet the `/raw` handler does not reject it — JavaScript
truthiness skips the validation for an empty string, the fetch is performed
and the response is 200 with the previous business day as the date used. -/
theorem empty_fecha_counterexample :
    isValidDateFormat "" = false ∧
    rawHandler (some "") ⟨2025, 4, 23⟩ (Except.ok ([3] : List Nat)) =
      (RawResponse.success "2025-04-22" 1 [3], [Effect.fetchCall]) ∧
    (rawHandler (some "") ⟨2025, 4, 23⟩ (Except.ok ([3] : List Nat))).1.status = 200 ∧
    (rawHandler (some "") ⟨2025, 4, 23⟩ (Except.ok ([3] : List Nat))).2 ≠ [] :=
  ⟨rfl, rfl, rfl, by decide⟩

/-- C7 (amended): for every request to the three endpoints whose `fecha`
parameter is present, nonempty and invalid, the handler responds 400 and
performs zero outbound calls. -/
theorem invalid_date_rejected (α : Type) (s : String) (today : CivilDate)
    (o : Except String (List α)) (chat : ChatOutcome)
    (h1 : s ≠ "") (h2 : isValidDateFormat s = false) :
    rawHandler (some s) today o = (RawResponse.invalidDate, []) ∧
    filteredHandler (some s) today o = (RawResponse.invalidDate, []) ∧
    analyzedHandler (some s) today o chat = (AnalyzedResponse.invalidDate, []) ∧
    (rawHandler (some s) today o).1.status = 400 ∧
    (filteredHandler (some s) today o).1.status = 400 ∧
    (analyzedHandler (some s) today o chat).1.status = 400 := by
  have hcond : (fechaTruthy (some s) && !isValidDateFormat ((some s).getD "")) = true := by
    simp [fechaTruthy, h2, bne_iff_ne, h1]
  have ha : rawHandler (some s) today o = (RawResponse.invalidDate, []) := by
    unfold rawHandler; rw [hcond]; rfl
  have hb : filteredHandler (some s) today o = (RawResponse.invalidDate, []) := by
    unfold filteredHandler; rw [hcond]; rfl
  have hc : analyzedHandler (some s) today o chat = (AnalyzedResponse.invalidDate, []) := by
    unfold analyzedHandler; rw [hcond]; rfl
  exact ⟨ha, hb, hc, by rw [ha]; rfl, by rw [hb]; rfl, by rw [hc]; rfl⟩

/-- C7 witness at a concrete nonempty invalid date. -/
theorem invalid_date_rejected_witness :
    rawHandler (some "bad-date") ⟨2025, 4, 23⟩ (Except.ok ([] : List Nat)) =
        (RawResponse.invalidDate, []) ∧
    analyzedHandler (some "bad-date") ⟨2025, 4, 23⟩ (Except.ok ([] : List Nat))
        (ChatOutcome.response none) = (AnalyzedResponse.invalidDate, []) := by
  have h := invalid_date_rejected Nat "bad-date" ⟨2025, 4, 23⟩ (Except.ok [])
    (ChatOutcome.response none) (by decide) (by decide)
  exact ⟨h.1, h.2.2.1⟩

/-- C8: for every valid date and fetch result, `/raw` responds 200 with the
envelope holding the requested date, the record count and the records, and
`/analyzed` responds 200 with the envelope holding the requested date, the
count of fetched records passed to the analyzer, and the analysis result. -/
theorem success_envelope_spec (α : Type) (d : String) (records : List α)
    (today : CivilDate) (chat : ChatOutcome)
    (h : isValidDateFormat d = true) :
    rawHandler (some d) today (Except.ok records) =
      (RawResponse.success d records.length records, [Effect.fetchCall]) ∧
    (rawHandler (some d) today (Except.ok records)).1.status = 200 ∧
    analyzedHandler (some d) today (Except.ok records) chat =
      (AnalyzedResponse.success d records.length (analyseDataWithAI records chat),
       [Effect.fetchCall, Effect.analyzeCall]) ∧
    (analyzedHandler (some d) today (Except.ok records) chat).1.status = 200 := by
  have hne : d ≠ "" := by
    intro he
    rw [he] at h
    exact absurd h (by decide)
  have hcond : (fechaTruthy (some d) && !isValidDateFormat ((some d).getD "")) = false := by
    simp [fechaTruthy, h]
  have hres : resolveDate (some d) today = d := by
    simp [resolveDate, hne]
  have ha : rawHandler (some d) today (Except.ok records) =
      (RawResponse.success d records.length records, [Effect.fetchCall]) := by
    unfold rawHandler
    rw [hcond]
    simp only [Bool.false_eq_true, if_false, hres]
    rfl
  have hb : analyzedHandler (some d) today (Except.ok records) chat =
      (AnalyzedResponse.success d records.length (analyseDataWithAI records chat),
       [Effect.fetchCall, Effect.analyzeCall]) := by
    unfold analyzedHandler
    rw [hcond]
    simp only [Bool.false_eq_true, if_false, hres]
    rfl
  exact ⟨ha, by rw [ha]; rfl, hb, by rw [hb]; rfl⟩

/-- C8 witness at a concrete valid date and one-record fetch. -/
theorem success_envelope_witness :
    rawHandler (some "2025-04-18") ⟨2025, 4, 23⟩ (Except.ok ([7] : List Nat)) =
        (RawResponse.success "2025-04-18" 1 [7], [Effect.fetchCall]) ∧
    analyzedHandler (some "2025-04-18") ⟨2025, 4, 23⟩ (Except.ok ([7] : List Nat))
        (ChatOutcome.transportError "x") =
      (AnalyzedResponse.success "2025-04-18" 1 commErrorMarker,
       [Effect.fetchCall, Effect.analyzeCall]) := by
  have h := success_envelope_spec Nat "2025-04-18" [7] ⟨2025, 4, 23⟩
    (ChatOutcome.transportError "x") (by decide)
  exact ⟨h.1, h.2.2.1⟩

/-- C4: the three failure modes of the analyzer are surfaced by three
pairwise distinct markers: a transport or auth failure yields the
communication-error marker, a missing (or falsy) content yields the
no-content marker, and a present reply whose cleaned text is not valid JSON
yields the invalid-JSON marker carrying that cleaned text. -/
theorem analyse_failure_modes_distinct :
    (∀ (data : List Nat) (m : String),
      analyseDataWithAI data (ChatOutcome.transportError m) = commErrorMarker) ∧
    (∀ data : List Nat,
      analyseDataWithAI data (ChatOutcome.response none) = noContentMarker) ∧
    (∀ data : List Nat,
      analyseDataWithAI data (ChatOutcome.response (some "")) = noContentMarker) ∧
    (∀ (data : List Nat) (c : String), c ≠ "" → parseJson (cleanFence c) = none →
      analyseDataWithAI data (ChatOutcome.response (some c)) =
        invalidJsonMarker (cleanFence c)) ∧
    commErrorMarker ≠ noContentMarker ∧
    (∀ r, invalidJsonMarker r ≠ commErrorMarker) ∧
    (∀ r, invalidJsonMarker r ≠ noContentMarker) := by
  refine ⟨fun data m => rfl, fun data => rfl, fun data => rfl, ?_, ?_, ?_, ?_⟩
  · intro data c hc hp
    simp only [analyseDataWithAI]
    rw [if_neg hc, hp]
  · simp [commErrorMarker, noContentMarker]
  · intro r
    simp [invalidJsonMarker, commErrorMarker]
  · intro r
    simp [invalidJsonMarker, noContentMarker]

/-- C4 witness: a concrete non-JSON reply is mapped to the invalid-JSON
marker carrying the (here unchanged) cleaned text. -/
theorem analyse_failure_modes_witness :
    analyseDataWithAI ([] : List Nat) (ChatOutcome.response (some "oops")) =
      invalidJsonMarker "oops" := by
  have h := analyse_failure_modes_distinct.2.2.2.1 [] "oops" (by decide) (by rfl)
  exact h

/-- C9: the exact plain-text no-match sentence the system prompt asks for is
not valid JSON, is left unchanged by the cleanup, and is therefore returned
as the invalid-JSON error marker carrying the sentence — there is no
separate well-formed no-match sentinel; and every reply whose cleaned text
fails to parse is mapped to that same error marker. -/
theorem no_match_sentence_is_invalid_json :
    parseJson (cleanFence noMatchSentence) = none ∧
    cleanFence noMatchSentence = noMatchSentence ∧
    (∀ data : List Nat,
      analyseDataWithAI data (ChatOutcome.response (some noMatchSentence)) =
        invalidJsonMarker noMatchSentence) ∧
    (∀ (data : List Nat) (c : String), c ≠ "" → parseJson (cleanFence c) = none →
      analyseDataWithAI data (ChatOutcome.response (some c)) =
        invalidJsonMarker (cleanFence c)) := by
  refine ⟨rfl, rfl, fun data => rfl, ?_⟩
  intro data c hc hp
  simp only [analyseDataWithAI]
  rw [if_neg hc, hp]

/-- C9 witness at a concrete non-JSON reply. -/
theorem no_match_sentence_witness :
    analyseDataWithAI ([] : List Nat) (ChatOutcome.response (some "Hello SECOP")) =
      invalidJsonMarker "Hello SECOP" := by
  have h := no_match_sentence_is_invalid_json.2.2.2 [] "Hello SECOP" (by decide) (by rfl)
  exact h

/-- Modelled from the spec: strip one json fence marker at the very start of
the string (with one following newline if present), if any. -/
def specStripLeading : List Char → List Char
  | '\x60' :: '\x60' :: '\x60' :: 'j' :: 's' :: 'o' :: 'n' :: '\n' :: rest => rest
  | '\x60' :: '\x60' :: '\x60' :: 'j' :: 's' :: 'o' :: 'n' :: rest => rest
  | l => l

/-- Modelled from the spec: the cleanup heuristic as the specification words
it — strip exactly one leading fence marker and one trailing fence marker,
and nothing else. -/
def specCleanFence (c : String) : String :=
  String.mk (stripTrailingTicks (specStripLeading c.data))

/-- C5 counterexample: on the reply `a\x60\x60\x60jsonb` the code removes a fence
marker that is neither leading nor trailing (the unanchored first
replacement), producing `ab`, while a cleanup that strips only a leading
and a trailing marker leaves the reply unchanged. -/
theorem cleanFence_claim_counterexample :
    cleanFence "a\x60\x60\x60jsonb" = "ab" ∧
    specCleanFence "a\x60\x60\x60jsonb" = "a\x60\x60\x60jsonb" ∧
    cleanFence "a\x60\x60\x60jsonb" ≠ specCleanFence "a\x60\x60\x60jsonb" :=
  ⟨rfl, rfl, by decide⟩

/-- C5 (amended): the cleanup removes the first occurrence of the json fence
marker anywhere in the reply (with one following newline if present),
removes one trailing fence if the string then ends with it, and trims
surrounding whitespace before parsing; in particular a reply that is a
leading json fence, a body and a trailing fence cleans to the trimmed body,
and the fenced reply of the specification analyzes to the parsed object. -/
theorem cleanFence_amended_spec :
    (∀ data : List Nat,
      analyseDataWithAI data
          (ChatOutcome.response (some "\x60\x60\x60json\n\x7b\"a\":1\x7d\n\x60\x60\x60")) =
        Json.obj [("a", Json.num "1")]) ∧
    cleanFence "\x60\x60\x60json\n\x7b\"a\":1\x7d\n\x60\x60\x60" = "\x7b\"a\":1\x7d" ∧
    (∀ c : String,
      cleanFence ("\x60\x60\x60json\n" ++ c ++ "\x60\x60\x60") = jsTrim c) := by
  refine ⟨fun data => rfl, rfl, ?_⟩
  intro c
  unfold cleanFence jsTrim
  rw [show ("\x60\x60\x60json\n" ++ c ++ "\x60\x60\x60").data
      = '\x60' :: '\x60' :: '\x60' :: 'j' :: 's' :: 'o' :: 'n' :: '\n' ::
        (c.data ++ ['\x60', '\x60', '\x60']) from rfl]
  rw [show removeFirstFence ('\x60' :: '\x60' :: '\x60' :: 'j' :: 's' :: 'o' :: 'n' :: '\n' ::
        (c.data ++ ['\x60', '\x60', '\x60'])) = c.data ++ ['\x60', '\x60', '\x60'] from rfl]
  unfold stripTrailingTicks
  rw [List.reverse_append]
  rw [show (['\x60', '\x60', '\x60'] : List Char).reverse ++ c.data.reverse
      = '\x60' :: '\x60' :: '\x60' :: c.data.reverse from rfl]
  rw [show stripRevTicks ('\x60' :: '\x60' :: '\x60' :: c.data.reverse)
      = c.data.reverse from rfl]
  rw [List.reverse_reverse]
